import Mathlib

/-!
# Verification of the cookie-based authentication session core

Shallow embedding of the session-token subsystem of the `express-ecomerce`
repository: the JWT token codec (`src/utils/jwt.ts`), the cookie transport
(`src/utils/cookies.ts`), the CSRF guard (`src/middlewares/csrf.ts`), the
authentication orchestrator (`src/middlewares/auth.ts`) and the logout
controller (`src/controllers/authController.ts`, `logoutUser`).

Conventions of the embedding:
* Timestamps are UTC epoch seconds as `Nat` (jose uses epoch seconds).
* A signed JWT string is modelled symbolically: the `signed` constructor
  records the payload, the `iat`/`exp` claims stamped at issuance and the
  signing secret; `jwtVerify` succeeds exactly when the verifying secret
  equals the signing secret (the HMAC model), then checks expiry.  A string
  that is not a compact JWS at all is `garbage`.
* jose error classes are modelled by `JwtError`; in `auth.ts` the orchestrator
  branches on `err instanceof JWTExpired` and `err instanceof JWTInvalid`,
  every other error class falls to the generic 401 branch.
* JavaScript truthiness of cookie values matters (`!accessToken`,
  `!csrfCookie`): `undefined` and the empty string are falsy, so presence is
  modelled as `Option` and falsiness tested by dedicated functions.
* The Express `Response` cookie mutations are modelled as an ordered list of
  `CookieAction`s; the Mongoose user collection as a `List UserRec`.
-/

/-- Embeds `JwtPayload` from `src/types/index.ts`: `{id, email, username}`. -/
structure JwtPayload where
  id : String
  email : String
  username : String
deriving DecidableEq, Repr

/-- Error classes thrown by `jose.jwtVerify`, as distinguished by the
orchestrator: `JWTExpired`, `JWTInvalid`, `JWSSignatureVerificationFailed`
(bad signature / wrong key) and `JWSInvalid` (not a compact JWS, also thrown
when the token argument is `undefined`). -/
inductive JwtError where
  | jwtExpired
  | jwtInvalid
  | sigVerificationFailed
  | jwsInvalid
deriving DecidableEq, Repr

/-- A JWT string, modelled symbolically.  `signed p iat exp secret` is the
compact JWS produced by `new SignJWT(p).setIssuedAt().setExpirationTime(...)
.sign(secret)`; `garbage s` is any string that is not a compact JWS. -/
inductive TokenStr where
  | signed (payload : JwtPayload) (iat : Nat) (exp : Nat) (secret : String)
  | garbage (s : String)
deriving DecidableEq, Repr

/-- The claim set returned by `jose.jwtVerify`: the signed payload together
with the `iat` and `exp` claims it carries. -/
structure DecodedClaims where
  payload : JwtPayload
  iat : Nat
  exp : Nat
deriving DecidableEq, Repr

/-- The environment configuration consumed by the auth core
(`src/config/env.ts`).  `REFRESH_TOKEN_EXPIRES_IN` is kept in seconds
(the env default is the string "30d"). -/
structure Env where
  NODE_ENV : String
  JWT_SECRET : String
  REFRESH_TOKEN_SECRET : String
  REFRESH_TOKEN_EXPIRES_IN : Nat
deriving DecidableEq, Repr

/-- Embeds `jose.jwtVerify(token, secretKey)` at time `now`: signature first
(`JWSSignatureVerificationFailed` on a wrong key), then the `exp` claim
(`JWTExpired` when `exp <= now`, clock tolerance 0).  A non-JWS input
(including `undefined` coerced here to `garbage`) raises `JWSInvalid`. -/
def jwtVerify (secret : String) (now : Nat) (t : TokenStr) : Except JwtError DecodedClaims :=
  match t with
  | .garbage _ => .error .jwsInvalid
  | .signed p iat exp sec =>
    if sec ≠ secret then .error .sigVerificationFailed
    else if exp ≤ now then .error .jwtExpired
    else .ok ⟨p, iat, exp⟩

/-- Embeds `generateAccessToken` (`src/utils/jwt.ts`): signs the payload with
`env.JWT_SECRET`, `iat = now`, expiration "15m". -/
def generateAccessToken (env : Env) (now : Nat) (p : JwtPayload) : TokenStr :=
  .signed p now (now + 15 * 60) env.JWT_SECRET

/-- Embeds `generateRefreshToken` (`src/utils/jwt.ts`): signs the payload with
`env.REFRESH_TOKEN_SECRET`, expiration `env.REFRESH_TOKEN_EXPIRES_IN`. -/
def generateRefreshToken (env : Env) (now : Nat) (p : JwtPayload) : TokenStr :=
  .signed p now (now + env.REFRESH_TOKEN_EXPIRES_IN) env.REFRESH_TOKEN_SECRET

/-- Embeds `verifyAccessToken` (`src/utils/jwt.ts`). -/
def verifyAccessToken (env : Env) (now : Nat) (t : TokenStr) : Except JwtError DecodedClaims :=
  jwtVerify env.JWT_SECRET now t

/-- Embeds `verifyRefreshToken` (`src/utils/jwt.ts`). -/
def verifyRefreshToken (env : Env) (now : Nat) (t : TokenStr) : Except JwtError DecodedClaims :=
  jwtVerify env.REFRESH_TOKEN_SECRET now t

/-- Embeds `verifyAccessToken` applied to the raw access cookie, which may be
absent: `jwtVerify(undefined, key)` throws `JWSInvalid`. -/
def verifyAccessTokenOpt (env : Env) (now : Nat) :
    Option TokenStr → Except JwtError DecodedClaims
  | none => .error .jwsInvalid
  | some t => verifyAccessToken env now t

/-! ## Cookie transport (`src/utils/cookies.ts`) -/

/-- The cookie attributes passed to `res.cookie` / `res.clearCookie`.
`maxAge` is in milliseconds; `res.clearCookie` call sites pass no `maxAge`. -/
structure CookieOptions where
  httpOnly : Bool
  secure : Bool
  sameSite : String
  path : String
  maxAge : Option Nat
deriving DecidableEq, Repr

/-- A cookie value: an auth token string, or a plain string (CSRF). -/
inductive CookieValue where
  | tok (t : TokenStr)
  | str (s : String)
deriving DecidableEq, Repr

/-- One mutation of the response cookie state: `res.cookie(name, value, opts)`
or `res.clearCookie(name, opts)`. -/
inductive CookieAction where
  | set (name : String) (value : CookieValue) (opts : CookieOptions)
  | clear (name : String) (opts : CookieOptions)
deriving DecidableEq, Repr

/-- The cookie name an action refers to. -/
def CookieAction.name : CookieAction → String
  | .set n _ _ => n
  | .clear n _ => n

/-- Whether an action is a `clear` of the given cookie name. -/
def CookieAction.isClearOf (a : CookieAction) (n : String) : Bool :=
  match a with
  | .clear m _ => m == n
  | .set _ _ _ => false

/-- Whether an action is a `set` of the given cookie name. -/
def CookieAction.isSetOf (a : CookieAction) (n : String) : Bool :=
  match a with
  | .set m _ _ => m == n
  | .clear _ _ => false

/-- Embeds `setTokenCookie` (`src/utils/cookies.ts`): writes the access cookie
`token` with `httpOnly, secure: isProduction, sameSite: "lax",
maxAge: 7 days (ms), path: "/"`. -/
def setTokenCookie (env : Env) (res : List CookieAction) (token : TokenStr) :
    List CookieAction :=
  res ++ [.set "token" (.tok token)
    ⟨true, env.NODE_ENV == "production", "lax", "/", some (7 * 24 * 60 * 60 * 1000)⟩]

/-- Embeds `setRefreshTokenCookie` (`src/utils/cookies.ts`): writes the refresh
cookie `refreshToken` with `httpOnly, secure: isProduction, sameSite: "lax",
maxAge: 30 days (ms), path: "/"`. -/
def setRefreshTokenCookie (env : Env) (res : List CookieAction) (token : TokenStr) :
    List CookieAction :=
  res ++ [.set "refreshToken" (.tok token)
    ⟨true, env.NODE_ENV == "production", "lax", "/", some (30 * 24 * 60 * 60 * 1000)⟩]

/-- Embeds `setCsrfCookie` (`src/utils/cookies.ts`): writes the CSRF cookie
`csrfToken` (value freshly random in the source, passed in here) with
`httpOnly: false, secure: isProduction, sameSite: "lax", path: "/",
maxAge: 7 days (ms)`. -/
def setCsrfCookie (env : Env) (res : List CookieAction) (csrfToken : String) :
    List CookieAction :=
  res ++ [.set "csrfToken" (.str csrfToken)
    ⟨false, env.NODE_ENV == "production", "lax", "/", some (7 * 24 * 60 * 60 * 1000)⟩]

/-- Embeds `clearAuthCookies` (`src/utils/cookies.ts`): clears the `token` and
`csrfToken` cookies (and only those), each with `httpOnly/secure/sameSite/path`
as at write time and no `maxAge`. -/
def clearAuthCookies (env : Env) (res : List CookieAction) : List CookieAction :=
  res ++ [.clear "token" ⟨true, env.NODE_ENV == "production", "lax", "/", none⟩,
          .clear "csrfToken" ⟨false, env.NODE_ENV == "production", "lax", "/", none⟩]

/-! ## CSRF guard (`src/middlewares/csrf.ts`) -/

/-- JavaScript falsiness of an optional string (`!csrfCookie`):
`undefined` and `""` are falsy. -/
def strFalsy : Option String → Bool
  | none => true
  | some s => s == ""

/-- Embeds `Buffer.from(s).length`: the UTF-8 byte length. -/
def bufLen (s : String) : Nat := s.utf8ByteSize

/-- Embeds `crypto.timingSafeEqual` on two equal-length buffers: byte equality
(two strings have equal UTF-8 bytes iff they are equal). -/
def timingSafeEqual (a b : String) : Bool := a == b

/-- The incoming request as seen by the auth middlewares: the method, the
`token` / `refreshToken` / `csrfToken` cookies and the `x-csrf-token`
header. -/
structure Req where
  method : String
  token : Option TokenStr
  refreshToken : Option TokenStr
  csrfCookie : Option String
  csrfHeader : Option String
deriving DecidableEq, Repr

/-- Outcome of a middleware around `next()`: continue downstream or respond
with `res.status(s).json({error})`. -/
inductive CsrfResult where
  | pass
  | reject (status : Nat) (error : String)
deriving DecidableEq, Repr

/-- Embeds `verifyCsrfToken` (`src/middlewares/csrf.ts`): safe methods pass; a falsy
cookie or header is "Missing CSRF token" (403); differing byte lengths or a
failing timing-safe comparison is "Invalid CSRF token" (403); otherwise
`next()`. -/
def verifyCsrfToken (req : Req) : CsrfResult :=
  if ["GET", "HEAD", "OPTIONS"].contains req.method then .pass
  else if strFalsy req.csrfCookie || strFalsy req.csrfHeader then
    .reject 403 "Missing CSRF token"
  else
    let c := req.csrfCookie.getD ""
    let h := req.csrfHeader.getD ""
    if bufLen c != bufLen h || !timingSafeEqual c h then
      .reject 403 "Invalid CSRF token"
    else .pass

/-! ## User store (`src/models/user.model.ts`, the fields the auth core reads) -/

/-- A user record as the orchestrator and logout see it: `_id` (as string),
`email`, and the nullable stored `refreshToken`. -/
structure UserRec where
  id : String
  email : String
  refreshToken : Option TokenStr
deriving DecidableEq, Repr

/-- The Mongoose `User` collection, with `_id` unique per record. -/
def UserStore := List UserRec
deriving DecidableEq, Repr

/-- Embeds `User.findById(id)`. -/
def findById (store : UserStore) (id : String) : Option UserRec :=
  store.find? (fun u => u.id == id)

/-- Embeds `User.findOne({refreshToken})` with a concrete token value. -/
def findByRefreshToken (store : UserStore) (t : TokenStr) : Option UserRec :=
  store.find? (fun u => u.refreshToken == some t)

/-- Embeds `user.refreshToken = v; await user.save()`: replace the stored refresh
token of the record with the given `_id`. -/
def saveRefreshToken (store : UserStore) (id : String) (v : Option TokenStr) :
    UserStore :=
  store.map (fun u => if u.id == id then { u with refreshToken := v } else u)

/-! ## Authentication orchestrator (`src/middlewares/auth.ts`) -/

/-- Truthiness of an optional token-string cookie (`!accessToken`): absent is
falsy, and the empty raw string is falsy; a compact JWS is never empty. -/
def tokFalsy : Option TokenStr → Bool
  | none => true
  | some (.garbage s) => s == ""
  | some (.signed _ _ _ _) => false

/-- The orchestrator's terminal behaviour for one request: continue
downstream with `req.user = u`, or respond `res.status(s).json({error})`. -/
inductive Outcome where
  | next (user : DecodedClaims)
  | reject (status : Nat) (error : String)
deriving DecidableEq, Repr

/-- Everything `authenticateUser` leaves behind: the terminal outcome, the
cookie mutations on the response (in call order), and the user store. -/
structure AuthResult where
  outcome : Outcome
  cookies : List CookieAction
  store : UserStore
deriving DecidableEq, Repr

/-- Glue from the CSRF guard's result to an orchestrator outcome, with
`req.user = u` already attached when the guard calls `next()`. -/
def csrfOutcome (req : Req) (u : DecodedClaims) : Outcome :=
  match verifyCsrfToken req with
  | .pass => .next u
  | .reject s e => .reject s e

/-- Embeds `authenticateUser` (`src/middlewares/auth.ts`), at time `now` over the
user store:
1. no (truthy) access or refresh cookie → 401 "No token provided";
2. `verifyAccessToken` succeeds → attach claims, delegate to the CSRF guard;
3. `JWTExpired` → refresh flow: missing refresh cookie or failing
   `verifyRefreshToken` (or a failing lookup cast, both inside the inner
   `try`) → 401 "Session expired. Please log in again."; user not found or
   stored token differing from the presented one → 403 "Invalid refresh
   token"; otherwise issue a new access token from the user record
   (`username: user.email` in the source), set only the `token` cookie,
   attach the refresh claims, delegate to the CSRF guard;
4. `JWTInvalid` → 401 "Invalid token";
5. any other error → 401 "Invalid or expired token". -/
def authenticateUser (env : Env) (now : Nat) (req : Req) (store : UserStore) :
    AuthResult :=
  if tokFalsy req.token && tokFalsy req.refreshToken then
    ⟨.reject 401 "No token provided", [], store⟩
  else
    match verifyAccessTokenOpt env now req.token with
    | .ok payload => ⟨csrfOutcome req payload, [], store⟩
    | .error e =>
      if e = .jwtExpired then
        match req.refreshToken with
        | none => ⟨.reject 401 "Session expired. Please log in again.", [], store⟩
        | some rt =>
          match verifyRefreshToken env now rt with
          | .error _ =>
            ⟨.reject 401 "Session expired. Please log in again.", [], store⟩
          | .ok refreshPayload =>
            match findById store refreshPayload.payload.id with
            | none => ⟨.reject 403 "Invalid refresh token", [], store⟩
            | some user =>
              if user.refreshToken ≠ some rt then
                ⟨.reject 403 "Invalid refresh token", [], store⟩
              else
                let newAccessToken :=
                  generateAccessToken env now ⟨user.id, user.email, user.email⟩
                let res := setTokenCookie env [] newAccessToken
                ⟨csrfOutcome req refreshPayload, res, store⟩
      else if e = .jwtInvalid then ⟨.reject 401 "Invalid token", [], store⟩
      else ⟨.reject 401 "Invalid or expired token", [], store⟩

/-! ## Logout (`src/controllers/authController.ts`, `logoutUser`) -/

/-- What `logoutUser` leaves behind: the user store, the response cookie
mutations, and the JSON response. -/
structure LogoutResult where
  store : UserStore
  cookies : List CookieAction
  status : Nat
  message : String
deriving DecidableEq, Repr

/-- Embeds `logoutUser` (`src/controllers/authController.ts`): if a (truthy)
`refreshToken` cookie is present and a user holds that stored token, null the
stored token; then `clearAuthCookies` and respond 200. -/
def logoutUser (env : Env) (req : Req) (store : UserStore) : LogoutResult :=
  let store' :=
    match req.refreshToken with
    | none => store
    | some t =>
      if tokFalsy (some t) then store
      else
        match findByRefreshToken store t with
        | none => store
        | some user => saveRefreshToken store user.id none
  ⟨store', clearAuthCookies env [], 200, "Logged out successfully"⟩

/-! ## Concrete fixtures -/

/-- A development environment with two distinct, ≥32-character secrets. -/
def envDev : Env :=
  ⟨"development",
   "access-secret-0123456789-0123456789-abc",
   "refresh-secret-0123456789-0123456789-ab",
   30 * 24 * 60 * 60⟩

/-- A sample payload (at login the source sets `username: user.email`). -/
def p0 : JwtPayload := ⟨"u1", "u1@example.com", "u1@example.com"⟩

/-- A refresh token issued at `t = 1000`, far from expiry at `t = 1000`. -/
def rt0 : TokenStr := generateRefreshToken envDev 1000 p0

/-- An access token issued at `t = 0`: its `exp = 900`, so it is expired
at `t = 1000`. -/
def atExpired : TokenStr := generateAccessToken envDev 0 p0

/-- The user record holding `rt0` as its stored refresh token. -/
def user0 : UserRec := ⟨"u1", "u1@example.com", some rt0⟩

/-- A store with exactly `user0`. -/
def store0 : UserStore := [user0]

/-- A `GET` request at `t = 1000` presenting the expired access token and
the live refresh token. -/
def req0 : Req := ⟨"GET", some atExpired, some rt0, none, none⟩

/-- The claims `verifyRefreshToken` yields for `rt0`. -/
def pl0 : DecodedClaims := ⟨p0, 1000, 1000 + 30 * 24 * 60 * 60⟩

/-! ## Claims -/

/-- C9 (confirmed): when neither an access-token cookie nor a refresh-token
cookie is present, `authenticateUser` responds 401 "No token provided"
immediately — for every method, CSRF cookie/header, time and store; the
response carries no cookie mutations and the store is untouched, so no token
verification, user lookup or CSRF check can have occurred. -/
theorem c9_noCookies_noTokenProvided (env : Env) (now : Nat) (m : String)
    (c h : Option String) (store : UserStore) :
    authenticateUser env now ⟨m, none, none, c, h⟩ store
      = ⟨.reject 401 "No token provided", [], store⟩ := rfl

/-- C6 counterexample: a `POST` whose CSRF cookie and `X-CSRF-Token` header
are both present and byte-identical (the empty string) is nonetheless
rejected 403 "Missing CSRF token" — the code's falsiness test treats `""` as
missing, so "passes exactly when cookie and header values are byte-identical"
fails. -/
theorem c6_counterexample :
    timingSafeEqual "" "" = true ∧
    verifyCsrfToken ⟨"POST", none, none, some "", some ""⟩
      = .reject 403 "Missing CSRF token" := by
  constructor <;> rfl

/-- C6 (corrected): safe methods always pass; for other methods, an absent
*or empty* cookie or header is rejected 403 "Missing CSRF token"; when both
are present and non-empty, the guard passes exactly on byte-identical values
and rejects 403 "Invalid CSRF token" otherwise. -/
theorem c6_csrfCharacterization (req : Req) :
    ((["GET", "HEAD", "OPTIONS"].contains req.method) = true →
      verifyCsrfToken req = .pass) ∧
    ((["GET", "HEAD", "OPTIONS"].contains req.method) = false →
      ((strFalsy req.csrfCookie || strFalsy req.csrfHeader) = true →
        verifyCsrfToken req = .reject 403 "Missing CSRF token") ∧
      ((strFalsy req.csrfCookie || strFalsy req.csrfHeader) = false →
        ((verifyCsrfToken req = .pass ↔ req.csrfCookie = req.csrfHeader) ∧
         (req.csrfCookie ≠ req.csrfHeader →
           verifyCsrfToken req = .reject 403 "Invalid CSRF token")))) := by
  refine ⟨fun hm => ?_, fun hm => ⟨fun hf => ?_, fun hf => ?_⟩⟩
  · unfold verifyCsrfToken
    simp only [hm]
    rfl
  · unfold verifyCsrfToken
    simp only [hm, hf]
    rfl
  · obtain ⟨hc, hh⟩ := Bool.or_eq_false_iff.mp hf
    cases hcc : req.csrfCookie with
    | none => rw [hcc] at hc; exact absurd hc (by simp [strFalsy])
    | some c =>
      cases hhh : req.csrfHeader with
      | none => rw [hhh] at hh; exact absurd hh (by simp [strFalsy])
      | some h =>
        rw [hcc] at hc; rw [hhh] at hh
        replace hc : ¬(c = "") := by simpa [strFalsy] using hc
        replace hh : ¬(h = "") := by simpa [strFalsy] using hh
        by_cases hch : c = h
        · subst hch
          constructor
          · unfold verifyCsrfToken
            simp only [hm, hcc, hhh]
            simp [strFalsy, hc, bufLen, timingSafeEqual]
          · intro hne
            exact absurd rfl hne
        · have hbeq : (c == h) = false := beq_eq_false_iff_ne.mpr hch
          have hb : (bufLen c != bufLen h || !timingSafeEqual c h) = true := by
            simp [timingSafeEqual, hbeq]
          constructor
          · unfold verifyCsrfToken
            simp only [hm, hcc, hhh]
            simp [strFalsy, hc, hh, hb, hch]
          · intro _
            unfold verifyCsrfToken
            simp only [hm, hcc, hhh]
            simp [strFalsy, hc, hh, hb]

/-- C6 witness: concrete instances of the corrected characterization — a
`POST` with equal non-empty values passes, with differing values is rejected
"Invalid CSRF token", and a `GET` passes with no values at all. -/
theorem c6_witness :
    verifyCsrfToken ⟨"POST", none, none, some "ab", some "ab"⟩ = .pass ∧
    verifyCsrfToken ⟨"POST", none, none, some "ab", some "ac"⟩
      = .reject 403 "Invalid CSRF token" ∧
    verifyCsrfToken ⟨"GET", none, none, none, none⟩ = .pass := by
  refine ⟨?_, ?_, ?_⟩
  · exact (((c6_csrfCharacterization ⟨"POST", none, none, some "ab", some "ab"⟩).2
      (by decide)).2 (by decide)).1.mpr rfl
  · exact (((c6_csrfCharacterization ⟨"POST", none, none, some "ab", some "ac"⟩).2
      (by decide)).2 (by decide)).2 (by decide)
  · exact (c6_csrfCharacterization ⟨"GET", none, none, none, none⟩).1 (by decide)

/-- C7 (confirmed): for every claim set and either token kind, verifying a
token freshly issued for that kind — before the token's `exp` — succeeds and
returns the input claim set (together with the stamped `iat`/`exp`). -/
theorem c7_issueVerifyRoundTrip (env : Env) (p : JwtPayload) (now now' : Nat) :
    (now' < now + 15 * 60 →
      verifyAccessToken env now' (generateAccessToken env now p)
        = .ok ⟨p, now, now + 15 * 60⟩) ∧
    (now' < now + env.REFRESH_TOKEN_EXPIRES_IN →
      verifyRefreshToken env now' (generateRefreshToken env now p)
        = .ok ⟨p, now, now + env.REFRESH_TOKEN_EXPIRES_IN⟩) := by
  constructor <;> intro h <;>
    simp [verifyAccessToken, verifyRefreshToken, generateAccessToken,
      generateRefreshToken, jwtVerify, Nat.not_le.mpr h]

/-- C7 witness: the round-trip at a concrete environment, payload and pair
of times inside both validity windows. -/
theorem c7_witness :
    verifyAccessToken envDev 10 (generateAccessToken envDev 0 p0)
      = .ok ⟨p0, 0, 15 * 60⟩ ∧
    verifyRefreshToken envDev 10 (generateRefreshToken envDev 0 p0)
      = .ok ⟨p0, 0, envDev.REFRESH_TOKEN_EXPIRES_IN⟩ :=
  ⟨(c7_issueVerifyRoundTrip envDev p0 0 10).1 (by decide),
   (c7_issueVerifyRoundTrip envDev p0 0 10).2 (by decide)⟩

/-- C8 (confirmed): with distinct configured secrets, a token issued as an
access token always fails refresh-kind verification, and vice versa, with
`JWSSignatureVerificationFailed` — regardless of issuance and verification
times (the signature is checked before expiry). -/
theorem c8_independentSecrets (env : Env) (p : JwtPayload) (now now' : Nat)
    (hsec : env.JWT_SECRET ≠ env.REFRESH_TOKEN_SECRET) :
    verifyRefreshToken env now' (generateAccessToken env now p)
      = .error .sigVerificationFailed ∧
    verifyAccessToken env now' (generateRefreshToken env now p)
      = .error .sigVerificationFailed := by
  constructor <;>
    simp [verifyRefreshToken, verifyAccessToken, generateAccessToken,
      generateRefreshToken, jwtVerify, hsec, Ne.symm hsec]

/-- C8 witness: cross-kind verification fails at the concrete environment
(whose two secrets differ). -/
theorem c8_witness :
    verifyRefreshToken envDev 0 (generateAccessToken envDev 0 p0)
      = .error .sigVerificationFailed ∧
    verifyAccessToken envDev 0 (generateRefreshToken envDev 0 p0)
      = .error .sigVerificationFailed :=
  c8_independentSecrets envDev p0 0 0 (by decide)

/-- Every terminal outcome of the orchestrator is either a direct rejection
or the CSRF guard's verdict on the request (for some attached claims). -/
theorem authenticateUser_outcome_cases (env : Env) (now : Nat) (req : Req)
    (store : UserStore) :
    (∃ s e, (authenticateUser env now req store).outcome = .reject s e) ∨
    (∃ u, (authenticateUser env now req store).outcome = csrfOutcome req u) := by
  unfold authenticateUser
  by_cases h0 : (tokFalsy req.token && tokFalsy req.refreshToken) = true
  · rw [if_pos h0]
    exact .inl ⟨401, "No token provided", rfl⟩
  · rw [if_neg h0]
    cases hv : verifyAccessTokenOpt env now req.token with
    | ok payload => exact .inr ⟨payload, rfl⟩
    | error e =>
      dsimp only
      by_cases he : e = JwtError.jwtExpired
      · rw [if_pos he]
        cases hrt : req.refreshToken with
        | none => exact .inl ⟨401, "Session expired. Please log in again.", rfl⟩
        | some rt =>
          dsimp only
          cases hrv : verifyRefreshToken env now rt with
          | error a => exact .inl ⟨401, "Session expired. Please log in again.", rfl⟩
          | ok rp =>
            dsimp only
            cases hfd : findById store rp.payload.id with
            | none => exact .inl ⟨403, "Invalid refresh token", rfl⟩
            | some user =>
              dsimp only
              by_cases hmt : user.refreshToken = some rt
              · rw [if_neg (not_not_intro hmt)]
                exact .inr ⟨rp, rfl⟩
              · rw [if_pos hmt]
                exact .inl ⟨403, "Invalid refresh token", rfl⟩
      · rw [if_neg he]
        by_cases hi : e = JwtError.jwtInvalid
        · rw [if_pos hi]
          exact .inl ⟨401, "Invalid token", rfl⟩
        · rw [if_neg hi]
          exact .inl ⟨401, "Invalid or expired token", rfl⟩

/-- C10 (confirmed): whenever `authenticateUser` continues downstream —
whether via the valid-access path or via the refresh path — the CSRF guard
passed on this request: both success paths delegate to `verifyCsrfToken`
instead of calling `next()` directly. -/
theorem c10_nextImpliesCsrfPass (env : Env) (now : Nat) (req : Req)
    (store : UserStore) (u : DecodedClaims)
    (hnext : (authenticateUser env now req store).outcome = .next u) :
    verifyCsrfToken req = .pass := by
  rcases authenticateUser_outcome_cases env now req store with ⟨s, e, h⟩ | ⟨u', h⟩
  · rw [h] at hnext
    exact absurd hnext (by simp)
  · rw [h] at hnext
    unfold csrfOutcome at hnext
    cases hcs : verifyCsrfToken req with
    | pass => rfl
    | reject s e =>
      rw [hcs] at hnext
      simp at hnext

/-- C10 witness: a concrete `GET` with a valid access token continues
downstream, and the CSRF guard indeed passes it. -/
theorem c10_witness :
    verifyCsrfToken ⟨"GET", some (generateAccessToken envDev 0 p0), none, none, none⟩
      = .pass :=
  c10_nextImpliesCsrfPass envDev 10
    ⟨"GET", some (generateAccessToken envDev 0 p0), none, none, none⟩ [] ⟨p0, 0, 15 * 60⟩
    (by decide)

/-- C4 (confirmed): when the presented (non-empty) access token fails
verification with any non-expiry error — `JWTInvalid`, a bad signature or a
malformed structure — the orchestrator rejects with 401 at once: no cookie is
written, the store is untouched, and the result is the same whatever refresh
cookie is present, so the refresh flow is never attempted. -/
theorem c4_invalidRejects401NoRefreshFlow (env : Env) (now : Nat) (req : Req)
    (store : UserStore) (a : TokenStr) (e : JwtError)
    (htok : req.token = some a)
    (hfal : tokFalsy (some a) = false)
    (hver : verifyAccessToken env now a = .error e)
    (hexp : e ≠ .jwtExpired) :
    authenticateUser env now req store
      = ⟨.reject 401
           (if e = .jwtInvalid then "Invalid token" else "Invalid or expired token"),
         [], store⟩ ∧
    ∀ rt, authenticateUser env now { req with refreshToken := rt } store
      = authenticateUser env now req store := by
  have key : ∀ r : Req, r.token = some a →
      authenticateUser env now r store
        = ⟨.reject 401
             (if e = .jwtInvalid then "Invalid token" else "Invalid or expired token"),
           [], store⟩ := by
    intro r hr
    unfold authenticateUser
    rw [hr]
    have h0 : (tokFalsy (some a) && tokFalsy r.refreshToken) = false := by
      rw [hfal, Bool.false_and]
    rw [h0]
    have hvo : verifyAccessTokenOpt env now (some a) = .error e := hver
    rw [hvo]
    dsimp only
    rw [if_neg hexp]
    by_cases hi : e = JwtError.jwtInvalid
    · rw [if_pos hi, if_pos hi]
      rfl
    · rw [if_neg hi, if_neg hi]
      rfl
  refine ⟨key req htok, fun rt => ?_⟩
  rw [key { req with refreshToken := rt } htok, key req htok]

/-- C4 witness: a concrete access token signed with a wrong secret is
rejected 401 (via the generic `JWSSignatureVerificationFailed` branch) with
no cookie mutations, on a request that does carry a refresh cookie. -/
theorem c4_witness :
    authenticateUser envDev 1000
      ⟨"GET", some (.signed p0 0 2000 "some-other-secret-aaaaaaaaaaaaaaaaaa"),
       some rt0, none, none⟩ store0
      = ⟨.reject 401 "Invalid or expired token", [], store0⟩ := by
  have h := (c4_invalidRejects401NoRefreshFlow envDev 1000
    ⟨"GET", some (.signed p0 0 2000 "some-other-secret-aaaaaaaaaaaaaaaaaa"),
     some rt0, none, none⟩ store0
    (.signed p0 0 2000 "some-other-secret-aaaaaaaaaaaaaaaaaa")
    .sigVerificationFailed rfl (by decide) rfl (by decide)).1
  simpa using h

/-- An access token that fails verification with `JWTExpired` is a signed
token, hence a non-empty (truthy) cookie value. -/
theorem tokFalsy_of_expired (env : Env) (now : Nat) (a : TokenStr)
    (hexp : verifyAccessToken env now a = .error .jwtExpired) :
    tokFalsy (some a) = false := by
  cases a with
  | signed p i x s => rfl
  | garbage s => simp [verifyAccessToken, jwtVerify] at hexp

/-- The refresh path of the orchestrator, solved: expired access token,
refresh token that verifies, user record found.  If the stored refresh token
differs from the presented one the request is rejected 403 "Invalid refresh
token" with no cookie mutations; if it matches, a new access token minted
from the user record is written as the only cookie and the CSRF guard
decides the outcome.  In both cases the store is left unchanged. -/
theorem authenticateUser_refreshPath (env : Env) (now : Nat) (req : Req)
    (store : UserStore) (a rt : TokenStr) (pl : DecodedClaims)
    (htok : req.token = some a)
    (hexp : verifyAccessToken env now a = .error .jwtExpired)
    (hrt : req.refreshToken = some rt)
    (hrv : verifyRefreshToken env now rt = .ok pl) :
    authenticateUser env now req store
      = match findById store pl.payload.id with
        | none => ⟨.reject 403 "Invalid refresh token", [], store⟩
        | some user =>
          if user.refreshToken ≠ some rt then
            ⟨.reject 403 "Invalid refresh token", [], store⟩
          else
            ⟨csrfOutcome req pl,
             setTokenCookie env []
               (generateAccessToken env now ⟨user.id, user.email, user.email⟩),
             store⟩ := by
  have hfal := tokFalsy_of_expired env now a hexp
  unfold authenticateUser
  rw [htok]
  have h0 : (tokFalsy (some a) && tokFalsy req.refreshToken) = false := by
    rw [hfal, Bool.false_and]
  rw [h0]
  have hvo : verifyAccessTokenOpt env now (some a) = .error .jwtExpired := hexp
  rw [hvo]
  dsimp only
  rw [if_pos rfl, hrt]
  dsimp only
  rw [hrv]
  dsimp only
  cases hfd : findById store pl.payload.id with
  | none => rfl
  | some user =>
    dsimp only
    by_cases hmt : user.refreshToken = some rt
    · rw [if_neg (not_not_intro hmt)]
      rfl
    · rw [if_pos hmt]
      rfl

/-- C5 counterexample: with an expired access token, a refresh token that
verifies, and an *empty* store (the subject does not exist), the orchestrator
rejects with status 403 and message "Invalid refresh token" — not with the
claimed 401. -/
theorem c5_counterexample :
    (authenticateUser envDev 1000 ⟨"GET", some atExpired, some rt0, none, none⟩
        []).outcome
      = .reject 403 "Invalid refresh token" := by decide

/-- C5 (corrected): when the user record for the refresh token's subject id
is not found, the request is rejected with HTTP status 403 and the message
"Invalid refresh token" (the same rejection as a stored-token mismatch), with
no cookie mutations and the store untouched. -/
theorem c5_userNotFoundRejects403 (env : Env) (now : Nat) (req : Req)
    (store : UserStore) (a rt : TokenStr) (pl : DecodedClaims)
    (htok : req.token = some a)
    (hexp : verifyAccessToken env now a = .error .jwtExpired)
    (hrt : req.refreshToken = some rt)
    (hrv : verifyRefreshToken env now rt = .ok pl)
    (hnf : findById store pl.payload.id = none) :
    authenticateUser env now req store
      = ⟨.reject 403 "Invalid refresh token", [], store⟩ := by
  rw [authenticateUser_refreshPath env now req store a rt pl htok hexp hrt hrv, hnf]

/-- C5 witness: the corrected rejection at the concrete empty-store
scenario. -/
theorem c5_witness :
    authenticateUser envDev 1000 ⟨"GET", some atExpired, some rt0, none, none⟩ []
      = ⟨.reject 403 "Invalid refresh token", [], []⟩ :=
  c5_userNotFoundRejects403 envDev 1000
    ⟨"GET", some atExpired, some rt0, none, none⟩ [] atExpired rt0 pl0
    rfl rfl rfl rfl rfl

/-- C1 counterexample: at the concrete rotation scenario — expired access
token, refresh token verifying and equal to the stored value — the request
succeeds, but the response carries no `refreshToken` cookie and the stored
refresh token is unchanged: no rotation happened. -/
theorem c1_counterexample :
    (authenticateUser envDev 1000 req0 store0).outcome = .next pl0 ∧
    ((authenticateUser envDev 1000 req0 store0).cookies.any
      (fun c => c.isSetOf "refreshToken")) = false ∧
    (authenticateUser envDev 1000 req0 store0).store = store0 := by
  refine ⟨by decide, by decide, by decide⟩

/-- C1 (corrected): on an expired access token with a refresh token that
verifies and equals the stored value, the orchestrator does *not* rotate the
refresh token: it issues only a fresh access token, writes it as the single
new cookie (`token`), leaves the stored refresh token unchanged, and the
CSRF guard decides the outcome on the refresh claims. -/
theorem c1_refreshWritesAccessCookieOnly (env : Env) (now : Nat) (req : Req)
    (store : UserStore) (a rt : TokenStr) (pl : DecodedClaims) (user : UserRec)
    (htok : req.token = some a)
    (hexp : verifyAccessToken env now a = .error .jwtExpired)
    (hrt : req.refreshToken = some rt)
    (hrv : verifyRefreshToken env now rt = .ok pl)
    (hfind : findById store pl.payload.id = some user)
    (hmatch : user.refreshToken = some rt) :
    authenticateUser env now req store
      = ⟨csrfOutcome req pl,
         [.set "token"
            (.tok (generateAccessToken env now ⟨user.id, user.email, user.email⟩))
            ⟨true, env.NODE_ENV == "production", "lax", "/",
             some (7 * 24 * 60 * 60 * 1000)⟩],
         store⟩ := by
  rw [authenticateUser_refreshPath env now req store a rt pl htok hexp hrt hrv, hfind]
  dsimp only
  rw [if_neg (not_not_intro hmatch)]
  rfl

/-- C1 witness: the corrected behaviour at the concrete scenario: the
response carries exactly one cookie, the new access token. -/
theorem c1_witness :
    authenticateUser envDev 1000 req0 store0
      = ⟨.next pl0,
         [.set "token" (.tok (generateAccessToken envDev 1000 p0))
            ⟨true, false, "lax", "/", some (7 * 24 * 60 * 60 * 1000)⟩],
         store0⟩ := by
  have h := c1_refreshWritesAccessCookieOnly envDev 1000 req0 store0
    atExpired rt0 pl0 user0 rfl rfl rfl rfl rfl rfl
  rw [h]
  rfl

/-- C2 counterexample: the same refresh token presented twice in sequence
(with an expired access token each time) succeeds BOTH times — the second
presentation is `next`, not a `RefreshReuseDetected` rejection, and nothing
is cleared. -/
theorem c2_counterexample :
    (authenticateUser envDev 1000 req0 store0).outcome = .next pl0 ∧
    (authenticateUser envDev 1000 req0
        (authenticateUser envDev 1000 req0 store0).store).outcome
      = .next pl0 := by
  refine ⟨by decide, by decide⟩

/-- C2 (corrected): refresh-token use is *not* single-use: under the same
conditions the first presentation succeeds, leaves the store unchanged and
clears nothing, so an identical second presentation yields the identical
successful result. -/
theorem c2_refreshTokenReusable (env : Env) (now : Nat) (req : Req)
    (store : UserStore) (a rt : TokenStr) (pl : DecodedClaims) (user : UserRec)
    (htok : req.token = some a)
    (hexp : verifyAccessToken env now a = .error .jwtExpired)
    (hrt : req.refreshToken = some rt)
    (hrv : verifyRefreshToken env now rt = .ok pl)
    (hfind : findById store pl.payload.id = some user)
    (hmatch : user.refreshToken = some rt) :
    (authenticateUser env now req store).outcome = csrfOutcome req pl ∧
    (authenticateUser env now req store).store = store ∧
    ((authenticateUser env now req store).cookies.any
      (fun c => c.isClearOf "token" || c.isClearOf "refreshToken"
        || c.isClearOf "csrfToken")) = false ∧
    authenticateUser env now req ((authenticateUser env now req store).store)
      = authenticateUser env now req store := by
  have h := authenticateUser_refreshPath env now req store a rt pl htok hexp hrt hrv
  rw [hfind] at h
  dsimp only at h
  rw [if_neg (not_not_intro hmatch)] at h
  refine ⟨by rw [h], by rw [h], by rw [h]; rfl, ?_⟩
  have hs : (authenticateUser env now req store).store = store := by rw [h]
  rw [hs]

/-- C2 witness: at the concrete scenario both sequential presentations of
`rt0` produce the same successful result. -/
theorem c2_witness :
    (authenticateUser envDev 1000 req0 store0).outcome = .next pl0 ∧
    authenticateUser envDev 1000 req0 ((authenticateUser envDev 1000 req0 store0).store)
      = authenticateUser envDev 1000 req0 store0 := by
  have h := c2_refreshTokenReusable envDev 1000 req0 store0
    atExpired rt0 pl0 user0 rfl rfl rfl rfl rfl rfl
  exact ⟨by rw [h.1]; rfl, h.2.2.2⟩

/-- C3 counterexample: a logout request carrying the live refresh cookie
clears no `refreshToken` cookie — the cookie-clearing operation used at
logout does not remove all three cookies. -/
theorem c3_counterexample :
    ((logoutUser envDev ⟨"POST", none, some rt0, none, none⟩ store0).cookies.any
      (fun c => c.isClearOf "refreshToken")) = false := by decide

/-- C3 (corrected): the cookie-clearing operation used at logout removes
only two of the three cookies, `token` and `csrfToken`, each with exactly
the HttpOnly/Secure/SameSite/Path attributes it was written with (and no
`maxAge`); the `refreshToken` cookie is never cleared. -/
theorem c3_logoutClearsTokenAndCsrfOnly (env : Env) (req : Req)
    (store : UserStore) (t : TokenStr) (s : String) :
    ∃ oSetTok oClrTok oSetCsrf oClrCsrf,
      setTokenCookie env [] t = [.set "token" (.tok t) oSetTok] ∧
      setCsrfCookie env [] s = [.set "csrfToken" (.str s) oSetCsrf] ∧
      clearAuthCookies env [] = [.clear "token" oClrTok, .clear "csrfToken" oClrCsrf] ∧
      oClrTok = { oSetTok with maxAge := none } ∧
      oClrCsrf = { oSetCsrf with maxAge := none } ∧
      (logoutUser env req store).cookies = clearAuthCookies env [] ∧
      ((logoutUser env req store).cookies.any
        (fun c => c.isClearOf "refreshToken")) = false := by
  refine ⟨⟨true, env.NODE_ENV == "production", "lax", "/", some (7 * 24 * 60 * 60 * 1000)⟩,
    ⟨true, env.NODE_ENV == "production", "lax", "/", none⟩,
    ⟨false, env.NODE_ENV == "production", "lax", "/", some (7 * 24 * 60 * 60 * 1000)⟩,
    ⟨false, env.NODE_ENV == "production", "lax", "/", none⟩,
    rfl, rfl, rfl, rfl, rfl, rfl, ?_⟩
  simp [logoutUser, clearAuthCookies, List.any, CookieAction.isClearOf]
